import Mathlib

/-!
Verification of the viewport-driven spatial loading and caching engine:
bounds utilities and LRU bounds cache (src/Utils/mapBounds.ts), the OSM
geometry converter and the viewport loader (useViewportBuildings hook).

Modelling conventions:
* JS numbers are modelled as exact rationals (ℚ); the coordinates and
  bounds exercised here are plain decimals, far from any float edge case.
* `toFixed(4)` is modelled by rounding `q * 10000` to the nearest integer
  (ties at .5 round up, which agrees with JS for the non-negative
  magnitudes involved); the formatted string is injective in the rounded
  quadruple, so the cache key is modelled as that quadruple of integers.
* A JS `Map` is an insertion-ordered association list (head = oldest);
  `Map.set` on an existing key updates the value in place without moving
  the entry, `Map.delete` removes the entry, exactly as in JS.
* Template-literal strings such as the Overpass bbox string
  `south,west,north,east` are injective in their numeric components
  (a JS number string never contains a comma), so they are modelled as
  the tuple of components.
-/

unseal Rat.ofScientific Rat.add Rat.mul Rat.sub Rat.inv

/-- Rectangular map bounds, from the `MapBounds` interface
(north, south, east, west in degrees). -/
structure MapBounds where
  north : ℚ
  south : ℚ
  east : ℚ
  west : ℚ
deriving DecidableEq

/-- Models `x.toFixed(4)`: the value rounded to 4 decimal places,
represented by the integer of ten-thousandths. -/
def toFixed4 (q : ℚ) : ℤ := round (q * 10000)

/-- Cache key type: the four rounded edges (the formatted key string
`north,south,east,west` is injective in this quadruple). -/
abbrev BKey := ℤ × ℤ × ℤ × ℤ

/-- `boundsToKey` from mapBounds.ts: 4-decimal rounding of each edge,
in the order north, south, east, west. -/
def boundsToKey (bounds : MapBounds) : BKey :=
  (toFixed4 bounds.north, toFixed4 bounds.south, toFixed4 bounds.east, toFixed4 bounds.west)

/-- `addBoundsBuffer` from mapBounds.ts: expand each edge outward by
`bufferPercent` of the extent along that axis (the source declares a
default of 0.2; the loader always passes 0.3). -/
def addBoundsBuffer (bounds : MapBounds) (bufferPercent : ℚ) : MapBounds :=
  let latBuffer := (bounds.north - bounds.south) * bufferPercent
  let lngBuffer := (bounds.east - bounds.west) * bufferPercent
  { north := bounds.north + latBuffer
    south := bounds.south - latBuffer
    east := bounds.east + lngBuffer
    west := bounds.west - lngBuffer }

/-- The Overpass bbox string `south,west,north,east`, modelled as the
tuple of its numeric components. -/
abbrev OverpassBbox := ℚ × ℚ × ℚ × ℚ

/-- `boundsToOverpassBbox` from mapBounds.ts. -/
def boundsToOverpassBbox (bounds : MapBounds) : OverpassBbox :=
  (bounds.south, bounds.west, bounds.north, bounds.east)

/-- `boundsOverlap` from mapBounds.ts:
`!(b1.east < b2.west || b2.east < b1.west || b1.north < b2.south || b2.north < b1.south)`. -/
def boundsOverlap (bounds1 bounds2 : MapBounds) : Bool :=
  decide (¬ (bounds1.east < bounds2.west ∨ bounds2.east < bounds1.west ∨
             bounds1.north < bounds2.south ∨ bounds2.north < bounds1.south))

/-- `isWithinVienna` from mapBounds.ts: overlap with the fixed Vienna
rectangle. -/
def isWithinVienna (bounds : MapBounds) : Bool :=
  boundsOverlap bounds { north := 48.35, south := 48.10, east := 16.60, west := 16.20 }

/-- One entry of the bounds cache: `{ data, timestamp, bounds }` as stored
by `BoundsCache.set` (`timestamp` is `Date.now()` at insertion, supplied
here as an explicit clock argument). -/
structure CacheEntry (α : Type) where
  data : α
  timestamp : ℕ
  bounds : MapBounds
deriving DecidableEq

/-- JS `Map.prototype.get` on an insertion-ordered association list. -/
def jsMapGet {α : Type} : List (BKey × α) → BKey → Option α
  | [], _ => none
  | p :: t, k => if p.1 = k then some p.2 else jsMapGet t k

/-- JS `Map.prototype.set`: update the value of an existing key in place
(keeping its position in insertion order), otherwise append at the end. -/
def jsMapSet {α : Type} : List (BKey × α) → BKey → α → List (BKey × α)
  | [], k, v => [(k, v)]
  | p :: t, k, v => if p.1 = k then (k, v) :: t else p :: jsMapSet t k v

/-- JS `Map.prototype.delete`: remove the entry with the given key. -/
def jsMapDelete {α : Type} : List (BKey × α) → BKey → List (BKey × α)
  | [], _ => []
  | p :: t, k => if p.1 = k then t else p :: jsMapDelete t k

/-- The `BoundsCache` class from mapBounds.ts: a `Map` from bounds key to
cache entry, insertion order = recency order, capacity 50. -/
structure BoundsCache (α : Type) where
  entries : List (BKey × CacheEntry α)
deriving DecidableEq

/-- `maxSize = 50` from the BoundsCache class. -/
def BoundsCache.maxSize : ℕ := 50

/-- `BoundsCache.set`: if at capacity, delete the first (oldest) key,
then `Map.set` the new entry. -/
def BoundsCache.set {α : Type} (c : BoundsCache α) (bounds : MapBounds) (d : α)
    (now : ℕ) : BoundsCache α :=
  let key := boundsToKey bounds
  let trimmed :=
    if BoundsCache.maxSize ≤ c.entries.length then
      match c.entries with
      | [] => c.entries
      | p :: _ => jsMapDelete c.entries p.1
    else c.entries
  ⟨jsMapSet trimmed key { data := d, timestamp := now, bounds := bounds }⟩

/-- `BoundsCache.get`: exact-key lookup; on a hit the entry is deleted and
re-inserted (moved to the end, i.e. most recently used) and its data is
returned; on a miss the cache is untouched and `null` is returned. -/
def BoundsCache.get {α : Type} (c : BoundsCache α) (bounds : MapBounds) :
    Option α × BoundsCache α :=
  let key := boundsToKey bounds
  match jsMapGet c.entries key with
  | some cached => (some cached.data, ⟨jsMapSet (jsMapDelete c.entries key) key cached⟩)
  | none => (none, c)

/-- `BoundsCache.findOverlapping`: payloads of all entries whose stored
bounds overlap the query bounds, in iteration order, without touching
recency. -/
def BoundsCache.findOverlapping {α : Type} (c : BoundsCache α) (bounds : MapBounds) :
    List α :=
  c.entries.filterMap (fun p => if boundsOverlap bounds p.2.bounds then some p.2.data else none)

/-- `BoundsCache.clear`. -/
def BoundsCache.clear {α : Type} : BoundsCache α := ⟨[]⟩

/-- `BoundsCache.size`. -/
def BoundsCache.size {α : Type} (c : BoundsCache α) : ℕ := c.entries.length

/-! ## Geometry converter (convertOSMToGeoJSON and helpers) -/

/-- OSM tags, a JSON object of string values; lookup by key. -/
abbrev Tags := List (String × String)

/-- JS truthiness of an optional string: `undefined` and the empty string
are falsy, every other string is truthy. -/
def truthy (o : Option String) : Bool :=
  match o with
  | none => false
  | some s => decide (s ≠ "")

/-- Property access `tags[k]` on the tag object. -/
def tagGet (tags : Tags) (k : String) : Option String :=
  (tags.find? (fun p => decide (p.1 = k))).map (fun p => p.2)

/-- A raw node of a way geometry; `none` in a field models a missing or
non-number `lon`/`lat` (the code checks `typeof node.lon === 'number'`). -/
structure RawNode where
  lon : Option ℚ
  lat : Option ℚ
deriving DecidableEq

/-- A member of a relation element (`{type, role, geometry}`). -/
structure RawMember where
  type : String
  role : String
  geometry : Option (List (Option RawNode))
deriving DecidableEq

/-- A raw upstream element as the converter sees it; a `none` field models
the absence of that property on the JSON object.  An entry `none` in a
geometry list models a null/undefined node (the code checks `node &&`). -/
structure OSMElement where
  type : String
  tags : Option Tags
  geometry : Option (List (Option RawNode))
  members : Option (List RawMember)
deriving DecidableEq

/-- The raw upstream payload `{ elements: [...] }`; `none` models a payload
without an `elements` array (the code uses `data.elements?.forEach`). -/
structure OSMData where
  elements : Option (List OSMElement)
deriving DecidableEq

/-- The node filter-and-map step:
`geometry.filter(node => node && typeof node.lon === 'number' && typeof node.lat === 'number').map(node => [node.lon, node.lat])`. -/
def filterNodes (ns : List (Option RawNode)) : List (ℚ × ℚ) :=
  ns.filterMap (fun n? =>
    match n? with
    | some n =>
      match n.lon, n.lat with
      | some lo, some la => some (lo, la)
      | _, _ => none
    | none => none)

/-- The recognized structural tag keys, in the order of the source's
`hasStructureTag` disjunction. -/
def structureTagKeys : List String :=
  ["building", "building:part", "landuse", "man_made", "amenity", "leisure",
   "shop", "office", "tourism", "historic", "aeroway", "railway",
   "public_transport", "craft", "industrial"]

/-- `hasStructureTag`: the element carries at least one truthy recognized
structural tag (the source is the `||`-chain over these fifteen keys). -/
def hasStructureTag (tags : Tags) : Bool :=
  structureTagKeys.any (fun k => truthy (tagGet tags k))

/-- Filter for relation members:
`member.type === 'way' && member.role === 'outer' && member.geometry && Array.isArray(member.geometry)`
(an array field is always an array in this model once present). -/
def isOuterWay (m : RawMember) : Bool :=
  decide (m.type = "way") && decide (m.role = "outer") && m.geometry.isSome

/-- Coordinate-ring extraction: a way maps its own nodes; a relation takes
the geometry of the first member filtered as an outer way; anything else
yields an empty list (and is then rejected by the length check). -/
def extractCoords (e : OSMElement) (geom : List (Option RawNode)) : List (ℚ × ℚ) :=
  if e.type = "way" then filterNodes geom
  else if e.type = "relation" then
    match e.members with
    | some ms =>
      match ms.filter isOuterWay with
      | [] => []
      | m :: _ => filterNodes (m.geometry.getD [])
    | none => []
  else []

/-- The per-coordinate validity test of the converter:
`coord[0] < 16.0 || coord[0] > 17.0 || coord[1] < 48.0 || coord[1] > 48.5`
(the `Array.isArray`/`typeof` checks always pass for constructed pairs). -/
def invalidCoord (p : ℚ × ℚ) : Bool :=
  decide (p.1 < 16) || decide (p.1 > 17) || decide (p.2 < 48) || decide (p.2 > 48.5)

/-- Last element of a list (`coords[coords.length - 1]`), by structural
recursion. -/
def lastPoint {α : Type} : List α → Option α
  | [] => none
  | [a] => some a
  | _ :: b :: t => lastPoint (b :: t)

/-- Ring closing: if the first and last points differ (compared
componentwise), append a copy of the first point. -/
def closeRing (coords : List (ℚ × ℚ)) : List (ℚ × ℚ) :=
  match coords.head?, lastPoint coords with
  | some f, some l => if f = l then coords else coords ++ [f]
  | _, _ => coords

/-- Value of a nonempty digit prefix, `none` when there is no digit. -/
def digitsVal (cs : List Char) : Option ℕ :=
  let ds := cs.takeWhile Char.isDigit
  if ds.isEmpty then none
  else some (ds.foldl (fun acc c => acc * 10 + (c.toNat - 48)) 0)

/-- Models JS `parseInt(s)` in base 10: skip leading whitespace, optional
sign, then the longest decimal-digit prefix; `none` models the `NaN`
result when no digit follows.  (The `0x` hexadecimal form of `parseInt`
is not exercised by any tag value considered here.) -/
def jsParseInt (s : String) : Option ℤ :=
  let cs := s.data.dropWhile Char.isWhitespace
  match cs with
  | '-' :: r => (digitsVal r).map (fun n => -(n : ℤ))
  | '+' :: r => (digitsVal r).map (fun n => (n : ℤ))
  | r => (digitsVal r).map (fun n => (n : ℤ))

/-- `getBuildingType` from the hook: the first truthy tag in its priority
chain decides the coarse type string; fallback is `"structure"`. -/
def getBuildingType (tags : Tags) : String :=
  let bld := tagGet tags "building"
  if truthy bld && decide (bld.getD "" ≠ "yes") then bld.getD ""
  else if truthy (tagGet tags "building:part") then (tagGet tags "building:part").getD ""
  else if truthy (tagGet tags "landuse") then (tagGet tags "landuse").getD "" ++ " area"
  else if truthy (tagGet tags "man_made") then (tagGet tags "man_made").getD ""
  else if truthy (tagGet tags "amenity") then (tagGet tags "amenity").getD ""
  else if truthy (tagGet tags "leisure") then (tagGet tags "leisure").getD ""
  else if truthy (tagGet tags "shop") then "shop (" ++ (tagGet tags "shop").getD "" ++ ")"
  else if truthy (tagGet tags "office") then "office"
  else if truthy (tagGet tags "tourism") then (tagGet tags "tourism").getD ""
  else if truthy (tagGet tags "historic") then (tagGet tags "historic").getD ""
  else if truthy (tagGet tags "aeroway") then (tagGet tags "aeroway").getD ""
  else if truthy (tagGet tags "railway") then (tagGet tags "railway").getD ""
  else if truthy (tagGet tags "public_transport") then (tagGet tags "public_transport").getD ""
  else if truthy (tagGet tags "craft") then (tagGet tags "craft").getD ""
  else if truthy (tagGet tags "industrial") then (tagGet tags "industrial").getD ""
  else "structure"

/-- `getBuildingTypeLabel` from the hook: the parallel, shorter label
priority chain; fallback is `"Vienna Structure"`. -/
def getBuildingTypeLabel (tags : Tags) : String :=
  let bld := tagGet tags "building"
  if truthy bld && decide (bld.getD "" ≠ "yes") then bld.getD "" ++ " building"
  else if truthy (tagGet tags "building:part") then "building part"
  else if truthy (tagGet tags "landuse") then (tagGet tags "landuse").getD "" ++ " area"
  else if truthy (tagGet tags "man_made") then (tagGet tags "man_made").getD ""
  else if truthy (tagGet tags "amenity") then (tagGet tags "amenity").getD ""
  else if truthy (tagGet tags "leisure") then (tagGet tags "leisure").getD ""
  else if truthy (tagGet tags "shop") then "shop"
  else if truthy (tagGet tags "office") then "office building"
  else "Vienna Structure"

/-- The ADRESSE property:
street + housenumber when both truthy, else `tags.name || label`. -/
def adresseOf (tags : Tags) : String :=
  if truthy (tagGet tags "addr:street") && truthy (tagGet tags "addr:housenumber") then
    (tagGet tags "addr:street").getD "" ++ " " ++ (tagGet tags "addr:housenumber").getD ""
  else if truthy (tagGet tags "name") then (tagGet tags "name").getD ""
  else getBuildingTypeLabel tags

/-- The NAME property: `tags.name || undefined`. -/
def nameOf (tags : Tags) : Option String :=
  if truthy (tagGet tags "name") then tagGet tags "name" else none

/-- The STOCKWERKE property:
`tags['building:levels'] || tags.levels ? parseInt(tags['building:levels'] || tags.levels) : undefined`.
The outer `Option` is presence of the property (`none` = `undefined`);
the inner `Option` is the `parseInt` result (`none` = `NaN`). -/
def stockwerkeOf (tags : Tags) : Option (Option ℤ) :=
  let bl := tagGet tags "building:levels"
  let lv := tagGet tags "levels"
  if truthy bl || truthy lv then
    some (jsParseInt (if truthy bl then bl.getD "" else lv.getD ""))
  else none

/-- The property bag of an emitted Building Feature (the `ViennaBuilding`
interface declares every field optional; the converter always assigns
ADRESSE and BAUWEISE strings and never assigns BAUJAHR). -/
structure BuildingProperties where
  ADRESSE : String
  BAUWEISE : String
  STOCKWERKE : Option (Option ℤ)
  BAUJAHR : Option ℤ
  NAME : Option String
deriving DecidableEq

/-- An emitted Building Feature.  `type: 'Feature'` and
`geometry.type: 'Polygon'` are constant; `coordinates` is
`geometry.coordinates` (a list of rings, always `[ring]` here). -/
structure ViennaBuilding where
  properties : BuildingProperties
  coordinates : List (List (ℚ × ℚ))
deriving DecidableEq

/-- Assembly of the accepted feature from its tags and closed ring. -/
def buildFeature (tags : Tags) (ring : List (ℚ × ℚ)) : ViennaBuilding :=
  { properties :=
      { ADRESSE := adresseOf tags
        BAUWEISE := getBuildingType tags
        STOCKWERKE := stockwerkeOf tags
        BAUJAHR := none
        NAME := nameOf tags }
    coordinates := [ring] }

/-- The per-element body of `convertOSMToGeoJSON`: skip (= `none`) on a
missing geometry or tag object, on the untagged-and-small test, and on
each validation failure; otherwise accept the built feature.  Every
operation of the source body is total here, so the surrounding
`try/catch` never fires in the model. -/
def processElement (e : OSMElement) : Option ViennaBuilding :=
  match e.geometry, e.tags with
  | some geom, some tags =>
    if hasStructureTag tags = false ∧ ¬ (e.type = "way" ∧ 3 < geom.length) then none
    else
      let coords := extractCoords e geom
      if coords.length < 4 then none
      else if coords.any invalidCoord = true then none
      else
        let closed := closeRing coords
        if 100 < closed.length then none
        else some (buildFeature tags closed)
  | _, _ => none

/-- `convertOSMToGeoJSON`: process each element in order, collecting the
accepted features (`forEach` + `push` = `filterMap`). -/
def convertOSMToGeoJSON (data : OSMData) : List ViennaBuilding :=
  (data.elements.getD []).filterMap processElement

/-! ## Viewport loader (useViewportBuildings) -/

/-- The feature collection stored in the cache and in the accumulated
state (`{ type: 'FeatureCollection', features }`; the type tag is
constant). -/
structure FeatureCollection where
  features : List ViennaBuilding
deriving DecidableEq

/-- The de-duplication key of the merge rule:
`f.geometry.coordinates[0][0].join(',')`, i.e. the first point of the
first ring (the joined string determines exactly this pair, since a JS
number string never contains a comma).  `none` models the absence of a
first ring point. -/
def firstPointKey (b : ViennaBuilding) : Option (ℚ × ℚ) :=
  b.coordinates.head?.bind List.head?

/-- The loader's state: accumulated buildings, loading flag, error state,
in-flight bbox-key set (`loadingRef`), and the module-level
`buildingCache`. -/
structure LoaderState where
  buildings : List ViennaBuilding
  loading : Bool
  error : Option String
  inFlight : List OverpassBbox
  cache : BoundsCache FeatureCollection
deriving DecidableEq

/-- Outcome of the synchronous prefix of `loadBuildings`, up to the fetch
suspension point. -/
inductive StartResult where
  | outsideVienna
  | alreadyLoading
  | cacheHit
  | fetchStarted (buffered : MapBounds)
deriving DecidableEq

/-- JS `Set.prototype.delete` on the in-flight key set. -/
def removeKey (l : List OverpassBbox) (k : OverpassBbox) : List OverpassBbox :=
  l.filter (fun x => decide (x ≠ k))

/-- The synchronous prefix of `loadBuildings(bounds)`: the Vienna guard,
buffering, the in-flight check, and the cache lookup; on a cache hit the
cached features are appended to the accumulated set as-is; on a miss,
`loading` is set, the error is cleared and the key enters the in-flight
set before the fetch starts. -/
def loadBuildingsStart (s : LoaderState) (bounds : MapBounds) :
    LoaderState × StartResult :=
  if isWithinVienna bounds = true then
    let bufferedBounds := addBoundsBuffer bounds 0.3
    let boundsKey := boundsToOverpassBbox bufferedBounds
    if boundsKey ∈ s.inFlight then (s, StartResult.alreadyLoading)
    else
      match s.cache.get bufferedBounds with
      | (some cachedData, cache') =>
        ({ s with cache := cache'
                  buildings := s.buildings ++ cachedData.features },
         StartResult.cacheHit)
      | (none, cache') =>
        ({ s with cache := cache'
                  loading := true
                  error := none
                  inFlight := boundsKey :: s.inFlight },
         StartResult.fetchStarted bufferedBounds)
  else (s, StartResult.outsideVienna)

/-- Completion of a started fetch for `bufferedBounds`.  On failure the
error message is stored and the accumulated set is untouched; on success
the converted features are cached under the buffered bounds and merged
into the accumulated set, keeping only those new features whose
first-ring-point key is not already present.  Both paths clear `loading`
and remove the bbox key from the in-flight set (the `finally` block). -/
def loadBuildingsFinish (s : LoaderState) (bufferedBounds : MapBounds)
    (result : Except String OSMData) (now : ℕ) : LoaderState :=
  let boundsKey := boundsToOverpassBbox bufferedBounds
  match result with
  | Except.error msg =>
    { s with error := some msg
             loading := false
             inFlight := removeKey s.inFlight boundsKey }
  | Except.ok data =>
    let newBuildings := convertOSMToGeoJSON data
    let cache' := s.cache.set bufferedBounds ⟨newBuildings⟩ now
    let existingCoords := s.buildings.map firstPointKey
    let uniqueNewBuildings :=
      newBuildings.filter (fun b => decide (firstPointKey b ∉ existingCoords))
    { s with buildings := s.buildings ++ uniqueNewBuildings
             cache := cache'
             loading := false
             inFlight := removeKey s.inFlight boundsKey }

/-- `clearCache`: clear the bounds cache and reset the accumulated set. -/
def clearCacheOp (s : LoaderState) : LoaderState :=
  { s with cache := BoundsCache.clear, buildings := [] }

/-- The loader's initial state. -/
def initialLoaderState : LoaderState :=
  { buildings := [], loading := false, error := none, inFlight := [], cache := ⟨[]⟩ }

/-! ## Concrete fixtures -/

/-- Degenerate integer-cornered bounds used as distinct cache keys. -/
def mkB (i : ℕ) : MapBounds := { north := (i : ℚ), south := (i : ℚ), east := (i : ℚ), west := (i : ℚ) }

/-- A valid in-region way node. -/
def node (lo la : ℚ) : Option RawNode := some { lon := some lo, lat := some la }

/-- The end-to-end scenario element: one way tagged
building=yes, addr:street=Graben, addr:housenumber=21, with 5 valid
in-region nodes whose first and last points differ. -/
def c5Elem : OSMElement :=
  { type := "way"
    tags := some [("building", "yes"), ("addr:street", "Graben"), ("addr:housenumber", "21")]
    geometry := some [node 16.3 48.2, node 16.31 48.2, node 16.31 48.21,
                      node 16.3 48.21, node 16.305 48.205]
    members := none }

/-- The end-to-end scenario payload. -/
def payloadC5 : OSMData := ⟨some [c5Elem]⟩

/-- The feature the converter produces for `payloadC5`. -/
def c5feat : ViennaBuilding :=
  { properties :=
      { ADRESSE := "Graben 21"
        BAUWEISE := "structure"
        STOCKWERKE := none
        BAUJAHR := none
        NAME := none }
    coordinates := [[(16.3, 48.2), (16.31, 48.2), (16.31, 48.21),
                     (16.3, 48.21), (16.305, 48.205), (16.3, 48.2)]] }

/-- A way with a non-integer floor-count tag value. -/
def c6Elem : OSMElement :=
  { type := "way"
    tags := some [("building", "yes"), ("building:levels", "abc")]
    geometry := some [node 16.3 48.2, node 16.31 48.2, node 16.31 48.21, node 16.3 48.21]
    members := none }

/-- Payload containing only `c6Elem`. -/
def payloadC6 : OSMData := ⟨some [c6Elem]⟩

/-- Viewport bounds inside the Vienna rectangle. -/
def traceB : MapBounds := { north := 48.21, south := 48.20, east := 16.38, west := 16.37 }

/-- The buffered bounds of `traceB` at fraction 0.3. -/
def traceBuffered : MapBounds := addBoundsBuffer traceB 0.3

/-- State after the first `loadBuildings(traceB)` reaches its fetch. -/
def traceState1 : LoaderState := (loadBuildingsStart initialLoaderState traceB).1

/-- State after that fetch succeeds with `payloadC5`. -/
def traceState2 : LoaderState :=
  loadBuildingsFinish traceState1 traceBuffered (Except.ok payloadC5) 0

/-- State after a second `loadBuildings(traceB)`, which hits the cache. -/
def traceState3 : LoaderState := (loadBuildingsStart traceState2 traceB).1

/-- A loader state whose in-flight set already holds the buffered key of
`traceB`. -/
def inflightState : LoaderState :=
  { buildings := [], loading := true, error := none
    inFlight := [boundsToOverpassBbox (addBoundsBuffer traceB 0.3)], cache := ⟨[]⟩ }

/-- Fifty distinct entries inserted in order 0..49. -/
def lru0 : BoundsCache ℕ :=
  (List.range 50).foldl (fun c i => c.set (mkB i) i 0) ⟨[]⟩

/-- `lru0` after a `get` access to entry 0 (promoting it). -/
def lru1 : BoundsCache ℕ := (lru0.get (mkB 0)).2

/-- `lru1` after insertion of a 51st distinct entry. -/
def lru2 : BoundsCache ℕ := lru1.set (mkB 50) 50 0

/-- Two entries, keys 101 then 102. -/
def c3Base : BoundsCache ℕ :=
  ((⟨[]⟩ : BoundsCache ℕ).set (mkB 101) 1 0).set (mkB 102) 2 0

/-- `c3Base` after re-inserting key 101 with new data 10. -/
def c3After : BoundsCache ℕ := c3Base.set (mkB 101) 10 1

/-- `c3After` filled with 48 further distinct entries (size 50). -/
def c3Full : BoundsCache ℕ :=
  (List.range 48).foldl (fun c i => c.set (mkB i) i 2) c3After

/-- `c3Full` after one more distinct insertion, which evicts the oldest
entry. -/
def c3End : BoundsCache ℕ := c3Full.set (mkB 100) 99 3

/-- A one-entry cache holding the key of `mkB 7`. -/
def c3Small : BoundsCache ℕ :=
  ⟨[(boundsToKey (mkB 7), { data := 1, timestamp := 0, bounds := mkB 7 })]⟩

/-- The feature the converter produces for `payloadC6` (STOCKWERKE holds
the NaN result of `parseInt("abc")`). -/
def c6feat : ViennaBuilding :=
  { properties :=
      { ADRESSE := "Vienna Structure"
        BAUWEISE := "structure"
        STOCKWERKE := some none
        BAUJAHR := none
        NAME := none }
    coordinates := [[(16.3, 48.2), (16.31, 48.2), (16.31, 48.21),
                     (16.3, 48.21), (16.3, 48.2)]] }

/-! ## Helper lemmas about the JS map model -/

theorem jsMapSet_length_le {α : Type} (m : List (BKey × α)) (k : BKey) (v : α) :
    (jsMapSet m k v).length ≤ m.length + 1 := by
  induction m with
  | nil => simp [jsMapSet]
  | cons p t ih =>
    by_cases h : p.1 = k
    · simp [jsMapSet, h]
    · simp only [jsMapSet, if_neg h, List.length_cons]
      omega

theorem jsMapGet_jsMapSet_self {α : Type} (m : List (BKey × α)) (k : BKey) (v : α) :
    jsMapGet (jsMapSet m k v) k = some v := by
  induction m with
  | nil => simp [jsMapSet, jsMapGet]
  | cons p t ih =>
    by_cases h : p.1 = k
    · simp [jsMapSet, h, jsMapGet]
    · simp [jsMapSet, h, jsMapGet, ih]

theorem jsMapSet_keys_of_get_isSome {α : Type} (m : List (BKey × α)) (k : BKey) (v : α)
    (h : (jsMapGet m k).isSome = true) :
    (jsMapSet m k v).map Prod.fst = m.map Prod.fst := by
  induction m with
  | nil => simp [jsMapGet] at h
  | cons p t ih =>
    by_cases hpk : p.1 = k
    · simp [jsMapSet, hpk]
    · simp only [jsMapGet, if_neg hpk] at h
      simp [jsMapSet, hpk, ih h]

theorem jsMapDelete_length_of_get_some {α : Type} {m : List (BKey × α)} {k : BKey}
    {v : α} (h : jsMapGet m k = some v) :
    (jsMapDelete m k).length + 1 = m.length := by
  induction m with
  | nil => simp [jsMapGet] at h
  | cons p t ih =>
    by_cases hpk : p.1 = k
    · simp [jsMapDelete, hpk]
    · simp only [jsMapGet, if_neg hpk] at h
      simp only [jsMapDelete, if_neg hpk, List.length_cons]
      have := ih h
      omega

/-! ## Helper lemmas about ring closing -/

theorem lastPoint_eq_getLast? {α : Type} (l : List α) : lastPoint l = l.getLast? := by
  induction l with
  | nil => rfl
  | cons a t ih =>
    cases t with
    | nil => rfl
    | cons b t2 =>
      rw [show lastPoint (a :: b :: t2) = lastPoint (b :: t2) from rfl, ih,
        List.getLast?_cons_cons]

theorem closeRing_cons (a : ℚ × ℚ) (t : List (ℚ × ℚ)) :
    closeRing (a :: t) =
      if a = (a :: t).getLast (List.cons_ne_nil a t) then a :: t
      else (a :: t) ++ [a] := by
  unfold closeRing
  rw [lastPoint_eq_getLast?, List.head?_cons,
    List.getLast?_eq_getLast (a :: t) (List.cons_ne_nil a t)]

theorem closeRing_length_le (coords : List (ℚ × ℚ)) :
    coords.length ≤ (closeRing coords).length := by
  cases coords with
  | nil => simp [closeRing]
  | cons a t =>
    rw [closeRing_cons]
    split
    · exact le_refl _
    · simp

theorem closeRing_mem {coords : List (ℚ × ℚ)} {p : ℚ × ℚ}
    (h : p ∈ closeRing coords) : p ∈ coords := by
  cases coords with
  | nil => simp [closeRing] at h
  | cons a t =>
    rw [closeRing_cons] at h
    split at h
    · exact h
    · rcases List.mem_append.mp h with h1 | h1
      · exact h1
      · simp only [List.mem_singleton] at h1
        exact h1 ▸ List.mem_cons_self _ _

theorem closeRing_head_eq_getLast {coords : List (ℚ × ℚ)} (h : coords ≠ []) :
    (closeRing coords).head? = (closeRing coords).getLast? := by
  cases coords with
  | nil => exact absurd rfl h
  | cons a t =>
    rw [closeRing_cons]
    split
    case isTrue heq =>
      rw [List.head?_cons, List.getLast?_eq_getLast (a :: t) (List.cons_ne_nil a t)]
      exact congrArg some heq
    case isFalse heq =>
      rw [List.getLast?_concat, List.cons_append, List.head?_cons]

/-! ## Inversion of the per-element converter -/

theorem processElement_some_inv {e : OSMElement} {b : ViennaBuilding}
    (h : processElement e = some b) :
    ∃ geom tags, e.geometry = some geom ∧ e.tags = some tags ∧
      4 ≤ (extractCoords e geom).length ∧
      (extractCoords e geom).any invalidCoord = false ∧
      (closeRing (extractCoords e geom)).length ≤ 100 ∧
      b = buildFeature tags (closeRing (extractCoords e geom)) := by
  obtain ⟨ty, tgs, geo, mem⟩ := e
  cases geo with
  | none => cases tgs <;> simp [processElement] at h
  | some geom =>
    cases tgs with
    | none => simp [processElement] at h
    | some tags =>
      refine ⟨geom, tags, rfl, rfl, ?_⟩
      unfold processElement at h
      dsimp only at h
      split at h
      · exact Option.noConfusion h
      · split at h
        · exact Option.noConfusion h
        · split at h
          · exact Option.noConfusion h
          · split at h
            · exact Option.noConfusion h
            · next h2 h3 h4 =>
              refine ⟨by omega, ?_, by omega, (Option.some.inj h).symm⟩
              simpa using h3

/-! ## Helper lemmas about the loader -/

theorem loadBuildingsStart_already (s : LoaderState) (b : MapBounds)
    (hv : isWithinVienna b = true)
    (hmem : boundsToOverpassBbox (addBoundsBuffer b 0.3) ∈ s.inFlight) :
    loadBuildingsStart s b = (s, StartResult.alreadyLoading) := by
  simp [loadBuildingsStart, hv, hmem]

theorem loadBuildingsStart_fetch_inv {s s' : LoaderState} {b buf : MapBounds}
    (h : loadBuildingsStart s b = (s', StartResult.fetchStarted buf)) :
    isWithinVienna b = true ∧
    boundsToOverpassBbox (addBoundsBuffer b 0.3) ∉ s.inFlight ∧
    buf = addBoundsBuffer b 0.3 ∧
    s'.inFlight = boundsToOverpassBbox (addBoundsBuffer b 0.3) :: s.inFlight ∧
    s'.loading = true := by
  unfold loadBuildingsStart at h
  by_cases hv : isWithinVienna b = true
  · rw [if_pos hv] at h
    dsimp only at h
    by_cases hmem : boundsToOverpassBbox (addBoundsBuffer b 0.3) ∈ s.inFlight
    · rw [if_pos hmem] at h
      exact absurd (congrArg Prod.snd h) (by simp)
    · rw [if_neg hmem] at h
      rcases hget : s.cache.get (addBoundsBuffer b 0.3) with ⟨res, cc⟩
      rw [hget] at h
      cases res with
      | some fc => exact absurd (congrArg Prod.snd h) (by simp)
      | none =>
        rw [Prod.mk.injEq] at h
        obtain ⟨hs, hb2⟩ := h
        injection hb2 with hb3
        subst hs
        exact ⟨hv, hmem, hb3.symm, rfl, rfl⟩
  · rw [if_neg hv] at h
    exact absurd (congrArg Prod.snd h) (by simp)

theorem loadBuildingsFinish_not_inflight (s : LoaderState) (buf : MapBounds)
    (r : Except String OSMData) (now : ℕ) :
    boundsToOverpassBbox buf ∉ (loadBuildingsFinish s buf r now).inFlight := by
  cases r with
  | error msg => simp [loadBuildingsFinish, removeKey, List.mem_filter]
  | ok data => simp [loadBuildingsFinish, removeKey, List.mem_filter]

theorem BoundsCache.set_entries {α : Type} (c : BoundsCache α) (b : MapBounds)
    (d : α) (now : ℕ) :
    (c.set b d now).entries =
      jsMapSet
        (if BoundsCache.maxSize ≤ c.entries.length then
          match c.entries with
          | [] => c.entries
          | p :: _ => jsMapDelete c.entries p.1
        else c.entries)
        (boundsToKey b) { data := d, timestamp := now, bounds := b } := rfl

theorem BoundsCache.get_eq {α : Type} (c : BoundsCache α) (b : MapBounds) :
    c.get b =
      match jsMapGet c.entries (boundsToKey b) with
      | some cached =>
        (some cached.data,
         ⟨jsMapSet (jsMapDelete c.entries (boundsToKey b)) (boundsToKey b) cached⟩)
      | none => (none, c) := rfl

theorem loadBuildingsFinish_ok_buildings (s : LoaderState) (buf : MapBounds)
    (data : OSMData) (now : ℕ) :
    (loadBuildingsFinish s buf (Except.ok data) now).buildings =
      s.buildings ++ (convertOSMToGeoJSON data).filter
        (fun b => decide (firstPointKey b ∉ s.buildings.map firstPointKey)) := rfl

set_option maxRecDepth 40000

/-! ## Claim theorems -/

/-- Claim C9: the overlap test is symmetric; identical well-formed bounds
overlap; bounds that are strictly separated on either axis do not
overlap; and bounds whose edges merely touch (equal edge coordinates)
count as overlapping. -/
theorem boundsOverlap_algebra :
    (∀ a b : MapBounds, boundsOverlap a b = boundsOverlap b a) ∧
    (∀ a : MapBounds, a.south ≤ a.north → a.west ≤ a.east →
      boundsOverlap a a = true) ∧
    (∀ a b : MapBounds,
      (a.east < b.west ∨ b.east < a.west ∨ a.north < b.south ∨ b.north < a.south) →
      boundsOverlap a b = false) ∧
    (∀ a b : MapBounds, a.east = b.west → a.west ≤ b.east →
      a.south ≤ b.north → b.south ≤ a.north → boundsOverlap a b = true) := by
  refine ⟨?_, ?_, ?_, ?_⟩
  · intro a b
    unfold boundsOverlap
    rw [decide_eq_decide]
    tauto
  · intro a hns hwe
    unfold boundsOverlap
    rw [decide_eq_true_eq]
    push_neg
    exact ⟨hwe, hwe, hns, hns⟩
  · intro a b h
    unfold boundsOverlap
    simp only [decide_eq_false_iff_not, not_not]
    exact h
  · intro a b h1 h2 h3 h4
    unfold boundsOverlap
    rw [decide_eq_true_eq]
    push_neg
    exact ⟨le_of_eq h1.symm, h2, h4, h3⟩

/-- Witness for C9 at concrete bounds: identical bounds overlap, bounds
separated on the longitude axis do not, and bounds touching at an edge
do overlap. -/
theorem boundsOverlap_algebra_witness :
    boundsOverlap { north := 2, south := 0, east := 2, west := 0 }
        { north := 2, south := 0, east := 2, west := 0 } = true ∧
    boundsOverlap { north := 2, south := 0, east := 2, west := 0 }
        { north := 2, south := 0, east := 5, west := 3 } = false ∧
    boundsOverlap { north := 2, south := 0, east := 2, west := 0 }
        { north := 2, south := 0, east := 4, west := 2 } = true :=
  ⟨boundsOverlap_algebra.2.1 _ (by norm_num) (by norm_num),
   boundsOverlap_algebra.2.2.1 _ _ (Or.inl (by norm_num)),
   boundsOverlap_algebra.2.2.2 _ _ (by norm_num) (by norm_num) (by norm_num) (by norm_num)⟩

/-- Counterexample to claim C3: re-inserting an existing signature updates
its data (shown on `c3After`) but does not refresh its recency, because
`Map.set` keeps an existing key at its old position.  Key 101 was
re-inserted after key 102 was added, yet a later overflow insertion
evicts key 101 while key 102 is still present — so the re-inserted entry
was not the last of the then-current entries to be evicted. -/
theorem put_existing_recency_cex :
    (jsMapGet c3After.entries (boundsToKey (mkB 101))).map (fun e => e.data) = some 10 ∧
    c3End.size = 50 ∧
    jsMapGet c3End.entries (boundsToKey (mkB 101)) = none ∧
    (jsMapGet c3End.entries (boundsToKey (mkB 102))).isSome = true := by
  refine ⟨?_, ?_, ?_, ?_⟩ <;> decide

/-- Claim C3 as amended: for a cache below capacity, `put` on a bounds
whose signature is already present updates the stored entry to the new
data (and timestamp) but leaves the key order — hence the eviction
order — unchanged, instead of making the entry most-recently-used. -/
theorem put_existing_updates_data_in_place (α : Type) (c : BoundsCache α)
    (b : MapBounds) (d : α) (now : ℕ)
    (hsize : c.size < 50)
    (hmem : (jsMapGet c.entries (boundsToKey b)).isSome = true) :
    (c.set b d now).entries.map Prod.fst = c.entries.map Prod.fst ∧
    jsMapGet (c.set b d now).entries (boundsToKey b) =
      some { data := d, timestamp := now, bounds := b } := by
  have hlt : ¬ (BoundsCache.maxSize ≤ c.entries.length) := by
    unfold BoundsCache.size at hsize
    unfold BoundsCache.maxSize
    omega
  rw [BoundsCache.set_entries, if_neg hlt]
  exact ⟨jsMapSet_keys_of_get_isSome c.entries (boundsToKey b) _ hmem,
         jsMapGet_jsMapSet_self c.entries (boundsToKey b) _⟩

/-- Witness for the amended C3 on a concrete one-entry cache. -/
theorem put_existing_updates_data_in_place_witness :
    (c3Small.set (mkB 7) 5 2).entries.map Prod.fst = c3Small.entries.map Prod.fst ∧
    jsMapGet (c3Small.set (mkB 7) 5 2).entries (boundsToKey (mkB 7)) =
      some { data := 5, timestamp := 2, bounds := mkB 7 } :=
  put_existing_updates_data_in_place ℕ c3Small (mkB 7) 5 2 (by decide)
    (by decide)

/-- Claim C4: the cache size never exceeds the capacity 50 (`set`
preserves the bound and `get` never grows the cache), and in the concrete
LRU scenario — 50 distinct entries inserted, entry 0 then promoted by a
`get`, then a 51st distinct entry inserted — the insertion evicts entry 1
(the least recently used), not the freshly accessed entry 0. -/
theorem cache_capacity_and_lru_eviction :
    (∀ (α : Type) (c : BoundsCache α) (b : MapBounds) (d : α) (now : ℕ),
      c.size ≤ 50 → (c.set b d now).size ≤ 50) ∧
    (∀ (α : Type) (c : BoundsCache α) (b : MapBounds),
      ((c.get b).2).size ≤ c.size) ∧
    (lru2.size = 50 ∧
     jsMapGet lru2.entries (boundsToKey (mkB 1)) = none ∧
     (jsMapGet lru2.entries (boundsToKey (mkB 0))).isSome = true ∧
     (jsMapGet lru2.entries (boundsToKey (mkB 50))).isSome = true) := by
  refine ⟨?_, ?_, by decide, by decide,
    by decide, by decide⟩
  · intro α c b d now hle
    unfold BoundsCache.size at hle ⊢
    rw [BoundsCache.set_entries]
    rcases hc : c.entries with _ | ⟨p, rest⟩
    · rw [if_neg (by simp [BoundsCache.maxSize])]
      simp [jsMapSet]
    · rw [hc] at hle
      by_cases hcap : BoundsCache.maxSize ≤ (p :: rest).length
      · rw [if_pos hcap]
        show (jsMapSet (jsMapDelete (p :: rest) p.1) (boundsToKey b)
          { data := d, timestamp := now, bounds := b }).length ≤ 50
        have hdel : jsMapDelete (p :: rest) p.1 = rest := by simp [jsMapDelete]
        rw [hdel]
        have h1 := jsMapSet_length_le rest (boundsToKey b)
          { data := d, timestamp := now, bounds := b }
        simp only [List.length_cons] at hle
        omega
      · rw [if_neg hcap]
        have h1 := jsMapSet_length_le (p :: rest) (boundsToKey b)
          { data := d, timestamp := now, bounds := b }
        unfold BoundsCache.maxSize at hcap
        omega
  · intro α c b
    unfold BoundsCache.size
    rw [BoundsCache.get_eq]
    cases hg : jsMapGet c.entries (boundsToKey b) with
    | none => exact le_refl _
    | some entry =>
      have h1 := jsMapDelete_length_of_get_some hg
      have h2 := jsMapSet_length_le (jsMapDelete c.entries (boundsToKey b))
        (boundsToKey b) entry
      simp only
      omega

/-- Witness for C4's capacity invariant at a concrete insertion into the
empty cache. -/
theorem cache_capacity_and_lru_eviction_witness :
    ((⟨[]⟩ : BoundsCache ℕ).set (mkB 0) 0 0).size ≤ 50 :=
  cache_capacity_and_lru_eviction.1 ℕ ⟨[]⟩ (mkB 0) 0 0 (by decide)

/-- Counterexample to claim C1: loading the same region twice — the second
time through the cache-hit path — duplicates the first-ring-point key in
the accumulated set, because the cache-hit path appends cached features
without the de-duplication filter. -/
theorem cache_hit_merge_duplicates_firstPointKey_cex :
    (loadBuildingsStart traceState2 traceB).2 = StartResult.cacheHit ∧
    traceState3.buildings.map firstPointKey =
      [some (16.3, 48.2), some (16.3, 48.2)] ∧
    ¬ (traceState3.buildings.map firstPointKey).Nodup := by
  refine ⟨?_, ?_, ?_⟩ <;> decide

/-- Claim C1 as amended: only the fetch-path merge de-duplicates.  It
appends exactly those fetched features whose first-ring-point key is not
already in the accumulated set, so it preserves distinctness of the keys
whenever the fetched batch itself has pairwise-distinct keys; the
cache-hit path performs no de-duplication (see the counterexample). -/
theorem fetch_merge_preserves_firstPointKey_nodup (s : LoaderState)
    (buffered : MapBounds) (data : OSMData) (now : ℕ)
    (h1 : (s.buildings.map firstPointKey).Nodup)
    (h2 : ((convertOSMToGeoJSON data).map firstPointKey).Nodup) :
    ((loadBuildingsFinish s buffered (Except.ok data) now).buildings.map
      firstPointKey).Nodup ∧
    ∀ b ∈ (loadBuildingsFinish s buffered (Except.ok data) now).buildings,
      b ∈ s.buildings ∨ firstPointKey b ∉ s.buildings.map firstPointKey := by
  rw [loadBuildingsFinish_ok_buildings]
  constructor
  · rw [List.map_append, List.nodup_append]
    refine ⟨h1, ?_, ?_⟩
    · exact h2.sublist ((List.filter_sublist _).map firstPointKey)
    · intro x hx1 hx2
      obtain ⟨b, hbf, rfl⟩ := List.mem_map.mp hx2
      have hmem := List.mem_filter.mp hbf
      have hnot : firstPointKey b ∉ s.buildings.map firstPointKey := by
        simpa using hmem.2
      exact hnot hx1
  · intro b hb
    rcases List.mem_append.mp hb with h | h
    · exact Or.inl h
    · have hmem := List.mem_filter.mp h
      right
      simpa using hmem.2

/-- Witness for the amended C1 at the concrete trace: a successful fetch
merged into the empty accumulated set yields distinct first-point keys. -/
theorem fetch_merge_preserves_firstPointKey_nodup_witness :
    ((loadBuildingsFinish initialLoaderState traceBuffered
      (Except.ok payloadC5) 0).buildings.map firstPointKey).Nodup :=
  (fetch_merge_preserves_firstPointKey_nodup initialLoaderState traceBuffered payloadC5 0
    (by decide) (by decide)).1

/-- Claim C2: a call whose buffered bbox key is already in flight returns
the state unchanged with no fetch; a call that starts a fetch had no such
key and pushes it onto the in-flight set (with loading set); completion
(success or failure) removes the key; and a second call with the same
bounds issued while the first fetch is outstanding is a no-op — so
concurrent identical calls cause exactly one upstream fetch. -/
theorem inflight_single_fetch :
    (∀ (s : LoaderState) (b : MapBounds), isWithinVienna b = true →
      boundsToOverpassBbox (addBoundsBuffer b 0.3) ∈ s.inFlight →
      loadBuildingsStart s b = (s, StartResult.alreadyLoading)) ∧
    (∀ (s s' : LoaderState) (b buf : MapBounds),
      loadBuildingsStart s b = (s', StartResult.fetchStarted buf) →
      boundsToOverpassBbox (addBoundsBuffer b 0.3) ∉ s.inFlight ∧
      s'.inFlight = boundsToOverpassBbox (addBoundsBuffer b 0.3) :: s.inFlight ∧
      s'.loading = true) ∧
    (∀ (s : LoaderState) (buf : MapBounds) (r : Except String OSMData) (now : ℕ),
      boundsToOverpassBbox buf ∉ (loadBuildingsFinish s buf r now).inFlight) ∧
    (∀ (s s' : LoaderState) (b buf : MapBounds),
      loadBuildingsStart s b = (s', StartResult.fetchStarted buf) →
      loadBuildingsStart s' b = (s', StartResult.alreadyLoading)) := by
  refine ⟨loadBuildingsStart_already, ?_, loadBuildingsFinish_not_inflight, ?_⟩
  · intro s s' b buf h
    obtain ⟨hv, hnm, hbuf, hin, hld⟩ := loadBuildingsStart_fetch_inv h
    exact ⟨hnm, hin, hld⟩
  · intro s s' b buf h
    obtain ⟨hv, hnm, hbuf, hin, hld⟩ := loadBuildingsStart_fetch_inv h
    exact loadBuildingsStart_already s' b hv (by rw [hin]; exact List.mem_cons_self _ _)

/-- Witness for C2 on the concrete trace: a duplicate call is a no-op, a
started fetch registers its key, and the same call repeated while in
flight is suppressed. -/
theorem inflight_single_fetch_witness :
    loadBuildingsStart inflightState traceB = (inflightState, StartResult.alreadyLoading) ∧
    (boundsToOverpassBbox (addBoundsBuffer traceB 0.3) ∉ initialLoaderState.inFlight ∧
     traceState1.inFlight =
       boundsToOverpassBbox (addBoundsBuffer traceB 0.3) :: initialLoaderState.inFlight ∧
     traceState1.loading = true) ∧
    loadBuildingsStart traceState1 traceB = (traceState1, StartResult.alreadyLoading) :=
  ⟨inflight_single_fetch.1 inflightState traceB (by decide)
     (by decide),
   inflight_single_fetch.2.1 initialLoaderState traceState1 traceB traceBuffered
     (by decide),
   inflight_single_fetch.2.2.2 initialLoaderState traceState1 traceB traceBuffered
     (by decide)⟩

/-- Claim C8: when a started fetch fails, the error message is stored and
the accumulated Building Set is untouched; and in both terminal paths
(failure and success) the loading flag is cleared and the buffered bbox
key is removed from the in-flight set. -/
theorem loader_terminal_paths (s : LoaderState) (buf : MapBounds) (now : ℕ) :
    (∀ msg,
      (loadBuildingsFinish s buf (Except.error msg) now).error = some msg ∧
      (loadBuildingsFinish s buf (Except.error msg) now).buildings = s.buildings ∧
      (loadBuildingsFinish s buf (Except.error msg) now).loading = false ∧
      boundsToOverpassBbox buf ∉
        (loadBuildingsFinish s buf (Except.error msg) now).inFlight) ∧
    (∀ data,
      (loadBuildingsFinish s buf (Except.ok data) now).loading = false ∧
      boundsToOverpassBbox buf ∉
        (loadBuildingsFinish s buf (Except.ok data) now).inFlight) := by
  constructor
  · intro msg
    exact ⟨rfl, rfl, rfl, loadBuildingsFinish_not_inflight s buf (Except.error msg) now⟩
  · intro data
    exact ⟨rfl, loadBuildingsFinish_not_inflight s buf (Except.ok data) now⟩

/-- Counterexample to claim C5: on the stated payload (one way tagged
building=yes with street Graben and housenumber 21, and 5 valid in-region
nodes whose ring the converter auto-closes) the converter produces exactly
one feature, but its ring has 6 points (the 5 nodes plus the appended
copy of the first point), not 5. -/
theorem graben_ring_length_cex :
    (convertOSMToGeoJSON payloadC5).length = 1 ∧
    ¬ (∀ b ∈ convertOSMToGeoJSON payloadC5, (b.coordinates.headD []).length = 5) ∧
    (convertOSMToGeoJSON payloadC5).map (fun b => (b.coordinates.headD []).length)
      = [6] := by
  refine ⟨?_, ?_, ?_⟩ <;> decide

/-- Claim C5 as amended: the payload yields exactly one Building Feature
with ADRESSE "Graben 21", BAUWEISE equal to the generic building fallback
label "structure", and a closed auto-completed ring of 6 points (first
point equal to last). -/
theorem graben_scenario_amended :
    convertOSMToGeoJSON payloadC5 = [c5feat] ∧
    c5feat.properties.ADRESSE = "Graben 21" ∧
    c5feat.properties.BAUWEISE = "structure" ∧
    getBuildingType [] = "structure" ∧
    (c5feat.coordinates.headD []).length = 6 ∧
    (c5feat.coordinates.headD []).head? = (c5feat.coordinates.headD []).getLast? := by
  refine ⟨?_, ?_, ?_, ?_, ?_, ?_⟩ <;> decide

/-- Counterexample to claim C6: a way whose floor-count tag value "abc"
fails to parse yields a feature whose STOCKWERKE property is present and
holds the NaN result of `parseInt` (modelled `some none`), not an absent
value. -/
theorem stockwerke_nan_cex :
    (convertOSMToGeoJSON payloadC6).map (fun b => b.properties.STOCKWERKE)
      = [some none] ∧
    ¬ (∀ b ∈ convertOSMToGeoJSON payloadC6, b.properties.STOCKWERKE = none) := by
  refine ⟨?_, ?_⟩ <;> decide

/-- Claim C6 as amended: an accepted feature's STOCKWERKE property is
exactly the floor-count policy applied to its tags — absent when neither
floor tag is truthy, and otherwise the `parseInt` of the selected tag
value, which stores NaN (`some none`) on parse failure instead of being
absent; no error is thrown either way (the converter is total). -/
theorem stockwerke_parse_policy (e : OSMElement) (tags : Tags) (b : ViennaBuilding)
    (ht : e.tags = some tags) (h : processElement e = some b) :
    b.properties.STOCKWERKE = stockwerkeOf tags ∧
    (truthy (tagGet tags "building:levels") = false →
      truthy (tagGet tags "levels") = false → b.properties.STOCKWERKE = none) ∧
    (∀ v, tagGet tags "building:levels" = some v → v ≠ "" →
      b.properties.STOCKWERKE = some (jsParseInt v)) := by
  obtain ⟨geom, tags2, hg, ht2, h4, hval, h100, rfl⟩ := processElement_some_inv h
  rw [ht] at ht2
  injection ht2 with hteq
  subst hteq
  refine ⟨rfl, ?_, ?_⟩
  · intro hbl hlv
    simp [buildFeature, stockwerkeOf, hbl, hlv]
  · intro v hv hne
    simp [buildFeature, stockwerkeOf, hv, truthy, hne]

/-- Witness for the amended C6 on the concrete element with
building:levels = "abc". -/
theorem stockwerke_parse_policy_witness :
    c6feat.properties.STOCKWERKE =
      stockwerkeOf [("building", "yes"), ("building:levels", "abc")] ∧
    c6feat.properties.STOCKWERKE = some (jsParseInt "abc") :=
  ⟨(stockwerke_parse_policy c6Elem [("building", "yes"), ("building:levels", "abc")]
      c6feat rfl (by decide)).1,
   (stockwerke_parse_policy c6Elem [("building", "yes"), ("building:levels", "abc")]
      c6feat rfl (by decide)).2.2 "abc" (by decide) (by decide)⟩

/-- Claim C7: every feature accepted by the converter has a single ring
with at least 4 points, at most 100 points after closing, first point
equal to last point, and every coordinate inside the home bounding box
(longitude 16-17, latitude 48-48.5). -/
theorem converter_ring_validation (data : OSMData) (b : ViennaBuilding)
    (hb : b ∈ convertOSMToGeoJSON data) :
    ∃ ring, b.coordinates = [ring] ∧ 4 ≤ ring.length ∧ ring.length ≤ 100 ∧
      ring.head? = ring.getLast? ∧
      ∀ p ∈ ring, 16 ≤ p.1 ∧ p.1 ≤ 17 ∧ 48 ≤ p.2 ∧ p.2 ≤ 48.5 := by
  unfold convertOSMToGeoJSON at hb
  obtain ⟨e, he, hpe⟩ := List.mem_filterMap.mp hb
  obtain ⟨geom, tags, hg, ht, h4, hval, h100, rfl⟩ := processElement_some_inv hpe
  refine ⟨closeRing (extractCoords e geom), rfl, ?_, h100, ?_, ?_⟩
  · exact le_trans h4 (closeRing_length_le _)
  · have hne : extractCoords e geom ≠ [] := by
      intro hnil
      rw [hnil] at h4
      simp at h4
    exact closeRing_head_eq_getLast hne
  · intro p hp
    have hpc := closeRing_mem hp
    rw [List.any_eq_false] at hval
    have hv2 := hval p hpc
    simp only [invalidCoord, Bool.or_eq_true, decide_eq_true_eq, not_or, not_lt] at hv2
    tauto

/-- Witness for C7 on the end-to-end payload's accepted feature. -/
theorem converter_ring_validation_witness :
    ∃ ring, c5feat.coordinates = [ring] ∧ 4 ≤ ring.length ∧ ring.length ≤ 100 ∧
      ring.head? = ring.getLast? ∧
      ∀ p ∈ ring, 16 ≤ p.1 ∧ p.1 ≤ 17 ∧ 48 ≤ p.2 ∧ p.2 ≤ 48.5 :=
  converter_ring_validation payloadC5 c5feat (by decide)

/-- Claim C10: the converter never assigns the BAUJAHR (construction
year) property: every feature it produces has BAUJAHR absent, even though
the feature shape declares the field. -/
theorem converter_never_assigns_baujahr (data : OSMData) (b : ViennaBuilding)
    (hb : b ∈ convertOSMToGeoJSON data) :
    b.properties.BAUJAHR = none := by
  unfold convertOSMToGeoJSON at hb
  obtain ⟨e, he, hpe⟩ := List.mem_filterMap.mp hb
  obtain ⟨geom, tags, hg, ht, h4, hval, h100, rfl⟩ := processElement_some_inv hpe
  rfl

/-- Witness for C10 on the end-to-end payload's accepted feature. -/
theorem converter_never_assigns_baujahr_witness :
    c5feat.properties.BAUJAHR = none :=
  converter_never_assigns_baujahr payloadC5 c5feat (by decide)
